import Mathlib

/-!
Shallow embedding of the OpenSCV core (src/claude.ts, src/index.ts):
the stream-JSON line parser, the process-supervisor timeout escalation,
the Slack update coalescer, the deduplication cache and prompt validation.

Modelling conventions:
- JSON payload objects are embedded as structures whose fields are exactly
  the fields the TypeScript code probes; a missing or null field is `none`.
- JavaScript string falsiness (undefined, null, "") is modelled by
  `Option String` together with an emptiness test (`truthyOr`).
- Numeric payloads that the code only carries through verbatim
  (total_cost_usd, duration_ms, durationSeconds) are modelled as `Nat`.
- Wall-clock instants are `Nat` milliseconds.
-/

/-- ClaudeResult record from claude.ts. -/
structure ClaudeResult where
  success : Bool
  output : String
  timedOut : Bool
  exitCode : Option Int
  durationMs : Nat
  costUsd : Option Nat := none
  numTurns : Option Nat := none
deriving DecidableEq

/-- ClaudeStreamEvent union from claude.ts. -/
inductive ClaudeStreamEvent where
  | thinking : ClaudeStreamEvent
  | text_delta (text : String) (accumulated : String) : ClaudeStreamEvent
  | tool_use (toolName : String) : ClaudeStreamEvent
  | tool_result (toolName : String) (durationSec : Option Nat) : ClaudeStreamEvent
  | complete (result : ClaudeResult) : ClaudeStreamEvent
deriving DecidableEq

/-- Parser state threaded through parseStreamLine in claude.ts. -/
structure ParserState where
  accumulatedText : String
  currentToolName : Option String
  isThinking : Bool
deriving DecidableEq

def initParserState : ParserState :=
  { accumulatedText := "", currentToolName := none, isThinking := false }

/-- JavaScript truthy-or-default on an optional string: undefined, null and
the empty string are falsy. -/
def truthyOr (o : Option String) (d : String) : String :=
  match o with
  | some s => if s.isEmpty then d else s
  | none => d

/-- JavaScript truthiness of an optional string. -/
def isTruthyStr (o : Option String) : Bool :=
  match o with
  | some s => !s.isEmpty
  | none => false

/-- content_block object inside a content_block_start stream event. -/
structure RawBlock where
  type : Option String := none
  name : Option String := none
deriving DecidableEq

/-- delta object inside a content_block_delta stream event. -/
structure RawDelta where
  type : Option String := none
  text : Option String := none
deriving DecidableEq

/-- event object of a stream_event record. -/
structure RawEvent where
  type : Option String := none
  content_block : Option RawBlock := none
  delta : Option RawDelta := none
deriving DecidableEq

/-- one element of message.content in assistant / user records. -/
structure RawMsgBlock where
  type : Option String := none
  name : Option String := none
deriving DecidableEq

/-- message object of assistant / user records; content is `none` when the
field is absent or not an array. -/
structure RawMessage where
  content : Option (List RawMsgBlock) := none
deriving DecidableEq

/-- tool_use_result object of a user record. -/
structure RawToolUseResult where
  durationSeconds : Option Nat := none
deriving DecidableEq

/-- a parsed NDJSON record, with exactly the fields parseStreamLine probes. -/
structure JsonRec where
  type : Option String := none
  event : Option RawEvent := none
  message : Option RawMessage := none
  tool_use_result : Option RawToolUseResult := none
  result : Option String := none
  duration_ms : Option Nat := none
  total_cost_usd : Option Nat := none
  num_turns : Option Nat := none
  is_error : Option Bool := none
deriving DecidableEq

/-- one line of the NDJSON stream: either JSON.parse succeeds giving a
record, or it throws (malformed). -/
inductive StreamLine where
  | malformed : StreamLine
  | record (r : JsonRec) : StreamLine
deriving DecidableEq

/-- stream_event branch of parseStreamLine. -/
def handleStreamEvent (s : ParserState) (ev : Option RawEvent) :
    ParserState × List ClaudeStreamEvent :=
  match ev with
  | none => (s, [])
  | some e =>
    if e.type == some "content_block_start" then
      match e.content_block with
      | none => (s, [])
      | some block =>
        if block.type == some "thinking" && !s.isThinking then
          ({ s with isThinking := true }, [ClaudeStreamEvent.thinking])
        else if block.type == some "tool_use" then
          ({ s with currentToolName := some (truthyOr block.name "unknown_tool") },
           [ClaudeStreamEvent.tool_use (truthyOr block.name "unknown_tool")])
        else if block.type == some "text" then
          ({ s with isThinking := false }, [])
        else (s, [])
    else if e.type == some "content_block_delta" then
      match e.delta with
      | none => (s, [])
      | some d =>
        if d.type == some "text_delta" then
          ({ s with accumulatedText := s.accumulatedText ++ d.text.getD "undefined",
                    isThinking := false },
           [ClaudeStreamEvent.text_delta (d.text.getD "undefined")
              (s.accumulatedText ++ d.text.getD "undefined")])
        else (s, [])
    else (s, [])

/-- one content block of the assistant secondary channel: emits tool_use only
when the announced name differs from the currently tracked tool. -/
def assistantStep (s : ParserState) (b : RawMsgBlock) :
    ParserState × List ClaudeStreamEvent :=
  if b.type == some "tool_use" && isTruthyStr b.name then
    if s.currentToolName == some (b.name.getD "") then (s, [])
    else ({ s with currentToolName := some (b.name.getD "") },
          [ClaudeStreamEvent.tool_use (b.name.getD "")])
  else (s, [])

/-- the for-loop over message.content in the assistant branch. -/
def assistantFold : ParserState → List RawMsgBlock → ParserState × List ClaudeStreamEvent
  | s, [] => (s, [])
  | s, b :: bs =>
      ((assistantFold (assistantStep s b).1 bs).1,
       (assistantStep s b).2 ++ (assistantFold (assistantStep s b).1 bs).2)

/-- assistant branch of parseStreamLine. -/
def handleAssistant (s : ParserState) (msg : Option RawMessage) :
    ParserState × List ClaudeStreamEvent :=
  match msg with
  | none => (s, [])
  | some m =>
    match m.content with
    | none => (s, [])
    | some blocks => assistantFold s blocks

/-- user branch of parseStreamLine (tool result). -/
def handleUser (s : ParserState) (r : JsonRec) :
    ParserState × List ClaudeStreamEvent :=
  match r.message with
  | none => (s, [])
  | some m =>
    match m.content with
    | some (b :: _) =>
      if b.type == some "tool_result" then
        ({ s with currentToolName := none },
         [ClaudeStreamEvent.tool_result (truthyOr s.currentToolName "도구")
            (r.tool_use_result.bind (fun t => t.durationSeconds))])
      else (s, [])
    | _ => (s, [])

/-- the ClaudeResult assembled by the result branch of parseStreamLine. -/
def resultPayload (s : ParserState) (r : JsonRec) : ClaudeResult :=
  { success := !(r.is_error.getD false)
    output := truthyOr r.result (truthyOr (some s.accumulatedText) "(빈 응답)")
    timedOut := false
    exitCode := some 0
    durationMs := r.duration_ms.getD 0
    costUsd := r.total_cost_usd
    numTurns := r.num_turns }

/-- the complete event assembled by the result branch of parseStreamLine. -/
def resultComplete (s : ParserState) (r : JsonRec) : ClaudeStreamEvent :=
  ClaudeStreamEvent.complete (resultPayload s r)

/-- semantic dispatch of parseStreamLine on a parsed record. The TypeScript
code uses four independent if statements over the single type tag, which is
equivalent to this chain because at most one of them can match. -/
def parseRec (s : ParserState) (r : JsonRec) : ParserState × List ClaudeStreamEvent :=
  if r.type == some "stream_event" then handleStreamEvent s r.event
  else if r.type == some "assistant" then handleAssistant s r.message
  else if r.type == some "user" then handleUser s r
  else if r.type == some "result" then (s, [resultComplete s r])
  else (s, [])

/-- parseStreamLine from claude.ts: a malformed line (JSON.parse throws) is
silently skipped. -/
def parseStreamLine (s : ParserState) (l : StreamLine) :
    ParserState × List ClaudeStreamEvent :=
  match l with
  | StreamLine.malformed => (s, [])
  | StreamLine.record r => parseRec s r

/-- feeding a whole list of framed lines through the parser in order. -/
def processLines : ParserState → List StreamLine → ParserState × List ClaudeStreamEvent
  | s, [] => (s, [])
  | s, l :: ls =>
      ((processLines (parseStreamLine s l).1 ls).1,
       (parseStreamLine s l).2 ++ (processLines (parseStreamLine s l).1 ls).2)

def isWellFormed : StreamLine → Bool
  | StreamLine.malformed => false
  | StreamLine.record _ => true

def isResultLine : StreamLine → Bool
  | StreamLine.malformed => false
  | StreamLine.record r => r.type == some "result"

def isCompleteEv : ClaudeStreamEvent → Bool
  | ClaudeStreamEvent.complete _ => true
  | _ => false

def countComplete (es : List ClaudeStreamEvent) : Nat :=
  (es.filter isCompleteEv).length

/-- the ClaudeResult built by the close handler of runClaudeStream when the
stream itself produced no result record. -/
def closeResult (killed : Bool) (code : Option Int) (acc : String)
    (durationMs : Nat) : ClaudeResult :=
  { success := !killed && code == some 0
    output := if acc.trim.isEmpty then "(빈 응답)" else acc.trim
    timedOut := killed
    exitCode := code
    durationMs := durationMs }

/-- the full event sequence one run delivers to onEvent: every parser event
for every stdout line, followed by the close-handler synthesized complete
exactly when no complete was emitted by the stream (resultResolved false). -/
def runEvents (lines : List StreamLine) (killed : Bool) (code : Option Int)
    (durationMs : Nat) : List ClaudeStreamEvent :=
  if (processLines initParserState lines).2.any isCompleteEv then
    (processLines initParserState lines).2
  else
    (processLines initParserState lines).2 ++
      [ClaudeStreamEvent.complete
        (closeResult killed code
          (processLines initParserState lines).1.accumulatedText durationMs)]

/-! ### Prompt validation (claude.ts) -/

def MAX_PROMPT_LENGTH : Nat := 10000

/-- the five alternatives of the FORBIDDEN_PATTERNS regex, lowercased since
the regex carries the i flag. -/
def FORBIDDEN_PATTERNS : List (List Char) :=
  ["--dangerously".toList, "--system-prompt".toList, "--unsafe".toList,
   "--allowedtools".toList, "--disallowedtools".toList]

def charEqCI (a b : Char) : Bool := a.toLower == b.toLower

def isPrefixCI : List Char → List Char → Bool
  | [], _ => true
  | _ :: _, [] => false
  | a :: as, b :: bs => charEqCI a b && isPrefixCI as bs

/-- length of the first alternative that matches at the head of s, if any
(regex alternation tries the alternatives left to right). -/
def matchLenAt (s : List Char) : Option Nat :=
  (FORBIDDEN_PATTERNS.find? (fun p => isPrefixCI p s)).map List.length

/-- leftmost match at a position at or after the given one; returns start
and end index of the match. -/
def searchFrom : List Char → Nat → Option (Nat × Nat)
  | [], _ => none
  | c :: rest, pos =>
      match matchLenAt (c :: rest) with
      | some n => some (pos, pos + n)
      | none => searchFrom rest (pos + 1)

/-- RegExp.test on a g-flagged regex: the search starts at the regex object
lastIndex; on a match lastIndex advances to the match end, on a miss it
resets to 0. The pair returned is (matched, new lastIndex). -/
def regexTestG (s : List Char) (lastIndex : Nat) : Bool × Nat :=
  match searchFrom (s.drop lastIndex) lastIndex with
  | some (_, stop) => (true, stop)
  | none => (false, 0)

/-- validatePrompt from claude.ts. FORBIDDEN_PATTERNS is a module-level
regex object with the g flag, so its mutable lastIndex survives between
calls; the state is made explicit as an input/output Nat. -/
def validatePrompt (prompt : String) (lastIndex : Nat) : Option String × Nat :=
  if (regexTestG prompt.toList lastIndex).1 then
    (some "프롬프트에 금지된 패턴이 포함되어 있습니다", (regexTestG prompt.toList lastIndex).2)
  else if MAX_PROMPT_LENGTH < prompt.length then
    (some "프롬프트가 너무 깁니다 (최대 10000자)", (regexTestG prompt.toList lastIndex).2)
  else (none, (regexTestG prompt.toList lastIndex).2)

/-! ### Idempotency cache (index.ts, isDuplicate) -/

def MAX_CACHE_SIZE : Nat := 10000

def DEDUPE_EXPIRY_MS : Nat := 5 * 60 * 1000

/-- the processed Map, as an insertion-ordered association list. -/
abbrev DedupeCache := List (String × Nat)

def hasKey (c : DedupeCache) (k : String) : Bool :=
  c.any (fun e => e.1 == k)

def lookupKey (c : DedupeCache) (k : String) : Option Nat :=
  (c.find? (fun e => e.1 == k)).map (fun e => e.2)

/-- Map.set: overwrite in place if present, else append. -/
def setKey (c : DedupeCache) (k : String) (t : Nat) : DedupeCache :=
  if hasKey c k then c.map (fun e => if e.1 == k then (k, t) else e)
  else c ++ [(k, t)]

/-- the size-ceiling sweep: delete every entry older than the cutoff. -/
def sweepCache (c : DedupeCache) (cutoff : Nat) : DedupeCache :=
  c.filter (fun e => !(e.2 < cutoff))

/-- isDuplicate from index.ts at wall-clock instant now. -/
def isDuplicate (c : DedupeCache) (k : String) (now : Nat) : Bool × DedupeCache :=
  if hasKey c k then (true, c)
  else
    (false,
     if MAX_CACHE_SIZE < (setKey c k now).length then
       sweepCache (setKey c k now) (now - DEDUPE_EXPIRY_MS)
     else setKey c k now)

/-- the admit operation of the spec: the negation of isDuplicate. -/
def cacheAdmit (c : DedupeCache) (k : String) (now : Nat) : Bool × DedupeCache :=
  (!(isDuplicate c k now).1, (isDuplicate c k now).2)

/-! ### Update coalescer (index.ts, createStreamUpdater) -/

def getToolLabel (toolName : String) : String :=
  if toolName == "WebSearch" then "웹 검색"
  else if toolName == "WebFetch" then "웹 페이지 읽기"
  else if toolName == "Read" then "파일 읽기"
  else if toolName == "Edit" then "파일 수정"
  else if toolName == "Write" then "파일 생성"
  else if toolName == "Bash" then "명령어 실행"
  else if toolName == "Glob" then "파일 탐색"
  else if toolName == "Grep" then "코드 검색"
  else if toolName == "Task" then "에이전트 작업"
  else if toolName == "NotebookEdit" then "노트북 수정"
  else toolName

def MAX_PREVIEW_LEN : Nat := 3500

/-- closure state of createStreamUpdater. -/
structure RenderState where
  accumulatedText : String
  statusLine : String
  toolHistory : List String
  dirty : Bool
  flushing : Bool
  stopped : Bool
deriving DecidableEq

def initRenderState : RenderState :=
  { accumulatedText := "", statusLine := "🤔 생각 중...", toolHistory := [],
    dirty := true, flushing := false, stopped := false }

/-- buildMessage from createStreamUpdater; string indexing is by character
rather than UTF-16 unit. -/
def buildMessage (s : RenderState) : String :=
  (String.intercalate "\n"
    ((if 0 < s.toolHistory.length then [String.intercalate "\n" s.toolHistory] else [])
      ++ [s.statusLine]
      ++ (if s.accumulatedText.isEmpty then []
          else ["────────────",
                if MAX_PREVIEW_LEN < s.accumulatedText.length then
                  "...\n" ++ s.accumulatedText.drop (s.accumulatedText.length - MAX_PREVIEW_LEN)
                else s.accumulatedText]))).take 3900

/-- the onEvent callback of createStreamUpdater. -/
def updOnEvent (s : RenderState) (e : ClaudeStreamEvent) : RenderState :=
  if s.stopped then s
  else
    match e with
    | ClaudeStreamEvent.thinking =>
        { s with statusLine := "🧠 생각 중...", dirty := true }
    | ClaudeStreamEvent.tool_use toolName =>
        { s with statusLine := "🔧 " ++ getToolLabel toolName ++ " 중...", dirty := true }
    | ClaudeStreamEvent.tool_result toolName durationSec =>
        { s with
            toolHistory := s.toolHistory ++
              ["✅ " ++ getToolLabel toolName ++ " 완료" ++
                (match durationSec with
                 | some n => if n == 0 then "" else " (" ++ toString n ++ "초)"
                 | none => "")]
            statusLine := "🤔 분석 중..."
            dirty := true }
    | ClaudeStreamEvent.text_delta _ accumulated =>
        { s with accumulatedText := accumulated,
                 statusLine := "✍️ 답변 작성 중...", dirty := true }
    | ClaudeStreamEvent.complete _ => { s with stopped := true }

/-- the synchronous head of one interval callback, up to dispatching the
chat.update call: returns the new state and the pushed body, if any. -/
def tickStart (s : RenderState) : RenderState × Option String :=
  if s.stopped || !s.dirty || s.flushing then (s, none)
  else ({ s with dirty := false, flushing := true }, some (buildMessage s))

/-- the finally block of the interval callback, once the dispatched
chat.update settles (fulfilled or rejected). -/
def tickEnd (s : RenderState) : RenderState := { s with flushing := false }

/-- the actions that can reach the coalescer closure. -/
inductive UpdAction where
  | ev (e : ClaudeStreamEvent) : UpdAction
  | tickS : UpdAction
  | tickE : UpdAction

/-- one action against the coalescer state; the Bool records whether this
action started a push to Slack. -/
def updStep (s : RenderState) : UpdAction → RenderState × Bool
  | UpdAction.ev e => (updOnEvent s e, false)
  | UpdAction.tickS => ((tickStart s).1, (tickStart s).2.isSome)
  | UpdAction.tickE => (tickEnd s, false)

/-- number of pushes started along a sequence of actions. -/
def pushCount : RenderState → List UpdAction → Nat
  | _, [] => 0
  | s, a :: as =>
      (if (updStep s a).2 then 1 else 0) + pushCount (updStep s a).1 as

/-! ### Process supervisor timeout escalation (claude.ts, runClaudeStream)

The JavaScript timers form a tiny discrete-event system: the manual timeout
timer is armed at timeoutMs, the SIGKILL grace timer is armed 5000 ms after
the SIGTERM, the close/exit listeners clear both, and the close handler
finalizes the result. The model executes the pending events in deadline
order, process exit first on a tie (a kill delivered to an already exited
process is a benign no-op in the code). Process exit and stream close are
taken as simultaneous, and the stream is assumed to have produced no result
record (resultResolved is false), which is the situation the escalation
exists for. -/

inductive SupEvKind where
  | mainTimer : SupEvKind
  | killTimerEv : SupEvKind
  | procExit : SupEvKind
deriving DecidableEq

def evRank : SupEvKind → Nat
  | SupEvKind.procExit => 0
  | SupEvKind.mainTimer => 1
  | SupEvKind.killTimerEv => 2

def evLe (a b : Nat × SupEvKind) : Bool :=
  decide (a.1 < b.1) || (a.1 == b.1 && decide (evRank a.2 ≤ evRank b.2))

def pickMin : List (Nat × SupEvKind) → Option ((Nat × SupEvKind) × List (Nat × SupEvKind))
  | [] => none
  | e :: rest =>
      match pickMin rest with
      | none => some (e, [])
      | some (m, others) =>
          if evLe e m then some (e, m :: others) else some (m, e :: others)

def isTimerEv : SupEvKind → Bool
  | SupEvKind.procExit => false
  | _ => true

structure SupState where
  killed : Bool
  killAttempted : Bool
  sigTermSent : Bool
  sigKillSent : Bool
  exited : Bool
  pending : List (Nat × SupEvKind)
  finalResult : Option ClaudeResult
deriving DecidableEq

def initSup (timeoutMs exitTime : Nat) : SupState :=
  { killed := false, killAttempted := false, sigTermSent := false,
    sigKillSent := false, exited := false,
    pending := [(timeoutMs, SupEvKind.mainTimer), (exitTime, SupEvKind.procExit)],
    finalResult := none }

/-- effect of one due event: the timeout callback sends SIGTERM and arms the
5000 ms SIGKILL grace timer; the grace timer sends SIGKILL to the process
group; exit/close clear every pending timer and finalize the result. -/
def supHandle (code : Option Int) (acc : String) (s : SupState)
    (e : Nat × SupEvKind) : SupState :=
  match e.2 with
  | SupEvKind.procExit =>
      { s with exited := true
               pending := s.pending.filter (fun p => !isTimerEv p.2)
               finalResult := some (closeResult s.killed code acc e.1) }
  | SupEvKind.mainTimer =>
      if s.killAttempted then { s with killed := true }
      else { s with killed := true, killAttempted := true, sigTermSent := true
                    pending := (e.1 + 5000, SupEvKind.killTimerEv) :: s.pending }
  | SupEvKind.killTimerEv => { s with sigKillSent := true }

/-- run the earliest pending event, if any. -/
def supStep (code : Option Int) (acc : String) (s : SupState) : SupState :=
  match pickMin s.pending with
  | none => s
  | some (e, rest) => supHandle code acc { s with pending := rest } e

/-- the whole escalation: at most three events are ever pending (main timer,
grace timer, process exit), so four steps drain the queue. -/
def runSupervisor (timeoutMs exitTime : Nat) (code : Option Int) (acc : String) :
    SupState :=
  supStep code acc (supStep code acc (supStep code acc (supStep code acc
    (initSup timeoutMs exitTime))))

/-! ### Failure channels of runClaudeStream -/

/-- the ClaudeResult of the spawn catch block in runClaudeStream. -/
def spawnFailResult (errMsg : String) (durationMs : Nat) : ClaudeResult :=
  { success := false, output := "Claude CLI 실행 실패: " ++ errMsg,
    timedOut := false, exitCode := none, durationMs := durationMs }

/-- the ClaudeResult of the child error handler in runClaudeStream. -/
def procErrorResult (errMsg : String) (durationMs : Nat) : ClaudeResult :=
  { success := false, output := "프로세스 오류: " ++ errMsg,
    timedOut := false, exitCode := none, durationMs := durationMs }

/-- the four ways one run can terminate. runClaudeStream is built as
new Promise with only a resolve callback, so every path below both emits a
complete event and resolves the promise with the same ClaudeResult. -/
inductive RunOutcome where
  | spawnFail (errMsg : String) (durationMs : Nat) : RunOutcome
  | procError (errMsg : String) (durationMs : Nat) : RunOutcome
  | closed (killed : Bool) (code : Option Int) (accumulated : String)
      (durationMs : Nat) : RunOutcome
  | streamComplete (r : ClaudeResult) : RunOutcome

/-- the (complete event, resolved value) pair produced for each outcome. -/
def finalizeRun : RunOutcome → ClaudeStreamEvent × ClaudeResult
  | RunOutcome.spawnFail m d =>
      (ClaudeStreamEvent.complete (spawnFailResult m d), spawnFailResult m d)
  | RunOutcome.procError m d =>
      (ClaudeStreamEvent.complete (procErrorResult m d), procErrorResult m d)
  | RunOutcome.closed killed code acc d =>
      (ClaudeStreamEvent.complete (closeResult killed code acc d),
       closeResult killed code acc d)
  | RunOutcome.streamComplete r => (ClaudeStreamEvent.complete r, r)

/-! ### Concrete records used by witnesses and counterexamples -/

def thinkingStartRec : JsonRec :=
  { type := some "stream_event",
    event := some { type := some "content_block_start",
                    content_block := some { type := some "thinking" } } }

def toolUseStartRec (nm : Option String) : JsonRec :=
  { type := some "stream_event",
    event := some { type := some "content_block_start",
                    content_block := some { type := some "tool_use", name := nm } } }

def textDeltaRec (t : String) : JsonRec :=
  { type := some "stream_event",
    event := some { type := some "content_block_delta",
                    delta := some { type := some "text_delta", text := some t } } }

def assistantToolRec (nm : String) : JsonRec :=
  { type := some "assistant",
    message := some { content := some [{ type := some "tool_use", name := some nm }] } }

def resultRecDemo : JsonRec := { type := some "result", result := some "ok" }

def unkEv : RawEvent := { type := some "message_start" }

def unkBlock : RawBlock := { type := some "signature" }

def unkStartEv : RawEvent :=
  { type := some "content_block_start", content_block := some unkBlock }

def unkDelta : RawDelta := { type := some "input_json_delta" }

def unkDeltaEv : RawEvent :=
  { type := some "content_block_delta", delta := some unkDelta }

def unkRec1 : JsonRec := { type := some "system" }

def unkRec2 : JsonRec := { type := some "stream_event", event := some unkEv }

def unkRec3 : JsonRec := { type := some "stream_event", event := some unkStartEv }

def unkRec4 : JsonRec := { type := some "stream_event", event := some unkDeltaEv }

/-! ## Theorems -/

/-- C1: the claim says validatePrompt rejects every forbidden prompt on
every call, regardless of earlier calls. The FORBIDDEN_PATTERNS regex is
g-flagged and module level, so test() resumes from the lastIndex left by
the previous call: a second validation of the very same forbidden prompt
"--unsafe" returns null and the prompt is accepted. -/
theorem C1_forbidden_pattern_gflag_bug :
    (validatePrompt "--unsafe" 0).1 = some "프롬프트에 금지된 패턴이 포함되어 있습니다" ∧
    (validatePrompt "--unsafe" (validatePrompt "--unsafe" 0).2).1 = none := by
  decide

/-- C4: malformed (non-parseable) records emit no events and leave the
parser state unchanged, and the event sequence of any stream equals that of
the stream with its malformed records removed. -/
theorem C4_malformed_records_invisible (s : ParserState) (lines : List StreamLine) :
    parseStreamLine s StreamLine.malformed = (s, []) ∧
    processLines s (lines.filter isWellFormed) = processLines s lines := by
  refine ⟨rfl, ?_⟩
  induction lines generalizing s with
  | nil => rfl
  | cons l ls ih =>
    cases l with
    | malformed =>
        simp [List.filter, isWellFormed, processLines, parseStreamLine, ih]
    | record r =>
        simp [List.filter, isWellFormed, processLines, ih]

/-- C5 counterexample: the claim says a tool-invocation content-start clears
the thinking flag; in the code the tool_use branch never touches isThinking,
so from a thinking state it stays true. -/
theorem C5_counterexample :
    ¬ ((parseRec { accumulatedText := "", currentToolName := none, isThinking := true }
        (toolUseStartRec (some "Bash"))).1.isThinking = false) := by
  decide

/-- C5 amended: a content-start of sub-kind tool invocation records the tool
identifier as the active tool and emits tool_invoked, but leaves the thinking
flag unchanged, so a subsequent thinking content-start while the flag is
still set emits nothing. -/
theorem C5_amended_tool_block (s : ParserState) (nm : Option String)
    (h : s.isThinking = true) :
    parseRec s (toolUseStartRec nm) =
      ({ s with currentToolName := some (truthyOr nm "unknown_tool") },
       [ClaudeStreamEvent.tool_use (truthyOr nm "unknown_tool")]) ∧
    (parseRec s (toolUseStartRec nm)).1.isThinking = s.isThinking ∧
    (parseRec (parseRec s (toolUseStartRec nm)).1 thinkingStartRec).2 = [] := by
  obtain ⟨a, ct, th⟩ := s
  simp only [ParserState.mk.injEq] at h ⊢
  subst h
  exact ⟨rfl, rfl, rfl⟩

theorem C5_amended_witness :
    (({ accumulatedText := "", currentToolName := none, isThinking := true } : ParserState).isThinking = true) ∧
    (parseRec { accumulatedText := "", currentToolName := none, isThinking := true }
        (toolUseStartRec (some "Bash")) =
      ({ accumulatedText := "", currentToolName := some "Bash", isThinking := true },
       [ClaudeStreamEvent.tool_use "Bash"]) ∧
     (parseRec { accumulatedText := "", currentToolName := none, isThinking := true }
        (toolUseStartRec (some "Bash"))).1.isThinking =
       ({ accumulatedText := "", currentToolName := none, isThinking := true } : ParserState).isThinking ∧
     (parseRec (parseRec { accumulatedText := "", currentToolName := none, isThinking := true }
        (toolUseStartRec (some "Bash"))).1 thinkingStartRec).2 = []) :=
  ⟨by decide, C5_amended_tool_block
    { accumulatedText := "", currentToolName := none, isThinking := true } (some "Bash") (by decide)⟩

/-- C6: a tool invocation announced by the primary channel (content_block_start
tool_use) and immediately afterwards by the secondary channel (an assistant
record naming the same tool) yields exactly one tool_invoked event; the
secondary channel stays silent because the announced identifier equals the
currently active tool. -/
theorem C6_dedup_between_channels (s : ParserState) (t : String)
    (h : t.isEmpty = false) :
    (parseRec s (toolUseStartRec (some t))).2 = [ClaudeStreamEvent.tool_use t] ∧
    (parseRec (parseRec s (toolUseStartRec (some t))).1 (assistantToolRec t)).2 = [] ∧
    (parseRec (parseRec s (toolUseStartRec (some t))).1 (assistantToolRec t)).1.currentToolName = some t := by
  simp [parseRec, toolUseStartRec, assistantToolRec, handleStreamEvent, handleAssistant,
    assistantFold, assistantStep, truthyOr, isTruthyStr, h]

theorem C6_dedup_witness :
    ("Bash".isEmpty = false) ∧
    ((parseRec initParserState (toolUseStartRec (some "Bash"))).2 =
        [ClaudeStreamEvent.tool_use "Bash"] ∧
     (parseRec (parseRec initParserState (toolUseStartRec (some "Bash"))).1
        (assistantToolRec "Bash")).2 = [] ∧
     (parseRec (parseRec initParserState (toolUseStartRec (some "Bash"))).1
        (assistantToolRec "Bash")).1.currentToolName = some "Bash") :=
  ⟨by decide, C6_dedup_between_channels initParserState "Bash" (by decide)⟩

/-- C10: a well-formed record with an unrecognized top-level type, an
unrecognized stream-event inner type, an unrecognized content-block sub-kind,
or an unrecognized delta sub-kind emits nothing and leaves the parser state
untouched. -/
theorem C10_unrecognized_records_are_noops (s : ParserState)
    (r1 r2 r3 r4 : JsonRec) (ev2 ev3 ev4 : RawEvent) (cb3 : RawBlock) (dl4 : RawDelta)
    (h1a : (r1.type == some "stream_event") = false)
    (h1b : (r1.type == some "assistant") = false)
    (h1c : (r1.type == some "user") = false)
    (h1d : (r1.type == some "result") = false)
    (h2a : r2.type = some "stream_event") (h2b : r2.event = some ev2)
    (h2c : (ev2.type == some "content_block_start") = false)
    (h2d : (ev2.type == some "content_block_delta") = false)
    (h3a : r3.type = some "stream_event") (h3b : r3.event = some ev3)
    (h3c : ev3.type = some "content_block_start") (h3d : ev3.content_block = some cb3)
    (h3e : (cb3.type == some "thinking") = false)
    (h3f : (cb3.type == some "tool_use") = false)
    (h3g : (cb3.type == some "text") = false)
    (h4a : r4.type = some "stream_event") (h4b : r4.event = some ev4)
    (h4c : ev4.type = some "content_block_delta") (h4d : ev4.delta = some dl4)
    (h4e : (dl4.type == some "text_delta") = false) :
    parseRec s r1 = (s, []) ∧ parseRec s r2 = (s, []) ∧
    parseRec s r3 = (s, []) ∧ parseRec s r4 = (s, []) := by
  refine ⟨?_, ?_, ?_, ?_⟩
  · simp [parseRec, h1a, h1b, h1c, h1d]
  · simp [parseRec, h2a, h2b, handleStreamEvent, h2c, h2d]
  · simp [parseRec, h3a, h3b, handleStreamEvent, h3c, h3d, h3e, h3f, h3g]
  · simp [parseRec, h4a, h4b, handleStreamEvent, h4c, h4d, h4e]

theorem C10_noop_witness :
    (((unkRec1.type == some "stream_event") = false) ∧
     ((unkRec1.type == some "assistant") = false) ∧
     ((unkRec1.type == some "user") = false) ∧
     ((unkRec1.type == some "result") = false) ∧
     unkRec2.type = some "stream_event" ∧ unkRec2.event = some unkEv ∧
     ((unkEv.type == some "content_block_start") = false) ∧
     ((unkEv.type == some "content_block_delta") = false) ∧
     unkRec3.type = some "stream_event" ∧ unkRec3.event = some unkStartEv ∧
     unkStartEv.type = some "content_block_start" ∧
     unkStartEv.content_block = some unkBlock ∧
     ((unkBlock.type == some "thinking") = false) ∧
     ((unkBlock.type == some "tool_use") = false) ∧
     ((unkBlock.type == some "text") = false) ∧
     unkRec4.type = some "stream_event" ∧ unkRec4.event = some unkDeltaEv ∧
     unkDeltaEv.type = some "content_block_delta" ∧
     unkDeltaEv.delta = some unkDelta ∧
     ((unkDelta.type == some "text_delta") = false)) ∧
    (parseRec initParserState unkRec1 = (initParserState, []) ∧
     parseRec initParserState unkRec2 = (initParserState, []) ∧
     parseRec initParserState unkRec3 = (initParserState, []) ∧
     parseRec initParserState unkRec4 = (initParserState, [])) :=
  ⟨by decide,
   C10_unrecognized_records_are_noops initParserState unkRec1 unkRec2 unkRec3 unkRec4
     unkEv unkStartEv unkDeltaEv unkBlock unkDelta
     (by decide) (by decide) (by decide) (by decide) (by decide) (by decide)
     (by decide) (by decide) (by decide) (by decide) (by decide) (by decide)
     (by decide) (by decide) (by decide) (by decide) (by decide) (by decide)
     (by decide) (by decide)⟩
theorem handleStreamEvent_no_complete (s : ParserState) (ev : Option RawEvent) :
    ((handleStreamEvent s ev).2.any isCompleteEv) = false := by
  unfold handleStreamEvent
  cases ev with
  | none => rfl
  | some e =>
    dsimp only
    split
    · cases e.content_block with
      | none => rfl
      | some block =>
        dsimp only
        split
        · simp [isCompleteEv]
        · split
          · simp [isCompleteEv]
          · split
            · simp
            · simp
    · split
      · cases e.delta with
        | none => rfl
        | some d =>
          dsimp only
          split
          · simp [isCompleteEv]
          · simp
      · simp

theorem assistantFold_no_complete (s : ParserState) (bs : List RawMsgBlock) :
    ((assistantFold s bs).2.any isCompleteEv) = false := by
  induction bs generalizing s with
  | nil => rfl
  | cons b bs ih =>
    have hstep : ((assistantStep s b).2.any isCompleteEv) = false := by
      unfold assistantStep
      split
      · split
        · simp
        · simp [isCompleteEv]
      · simp
    simp [assistantFold, List.any_append, hstep, ih]

theorem handleAssistant_no_complete (s : ParserState) (msg : Option RawMessage) :
    ((handleAssistant s msg).2.any isCompleteEv) = false := by
  unfold handleAssistant
  split
  · rfl
  · split
    · rfl
    · exact assistantFold_no_complete _ _

theorem handleUser_no_complete (s : ParserState) (r : JsonRec) :
    ((handleUser s r).2.any isCompleteEv) = false := by
  unfold handleUser
  split
  · rfl
  · split
    · split
      · simp [isCompleteEv]
      · simp
    · rfl

theorem parseRec_no_complete (s : ParserState) (r : JsonRec)
    (h : (r.type == some "result") = false) :
    ((parseRec s r).2.any isCompleteEv) = false := by
  unfold parseRec
  split
  · exact handleStreamEvent_no_complete s r.event
  · split
    · exact handleAssistant_no_complete s r.message
    · split
      · exact handleUser_no_complete s r
      · split
        · simp_all
        · simp

theorem parseStreamLine_no_complete (s : ParserState) (l : StreamLine)
    (h : isResultLine l = false) :
    ((parseStreamLine s l).2.any isCompleteEv) = false := by
  cases l with
  | malformed => rfl
  | record r => exact parseRec_no_complete s r (by simpa [isResultLine] using h)

theorem processLines_no_complete (s : ParserState) (ls : List StreamLine)
    (h : ls.all (fun l => !isResultLine l) = true) :
    ((processLines s ls).2.any isCompleteEv) = false := by
  induction ls generalizing s with
  | nil => rfl
  | cons l ls ih =>
    rw [List.all_cons, Bool.and_eq_true] at h
    have h1 : isResultLine l = false := by
      cases hx : isResultLine l
      · rfl
      · simp [hx] at h
    simp [processLines, List.any_append,
      parseStreamLine_no_complete s l h1, ih _ h.2]

theorem parseRec_result (s : ParserState) (r : JsonRec)
    (h : (r.type == some "result") = true) :
    parseRec s r = (s, [resultComplete s r]) := by
  have ht : r.type = some "result" := by simpa using h
  simp [parseRec, ht]

theorem processLines_append (s : ParserState) (as bs : List StreamLine) :
    processLines s (as ++ bs) =
      ((processLines (processLines s as).1 bs).1,
       (processLines s as).2 ++ (processLines (processLines s as).1 bs).2) := by
  induction as generalizing s with
  | nil => simp [processLines]
  | cons a as ih => simp [processLines, ih, List.append_assoc]

/-- C2 counterexample: the claim quantifies over every record stream, but a
stream containing two result records makes parseStreamLine emit two complete
events (onEvent forwards every parsed event; resultResolved only guards the
promise resolution, not the event emission). -/
theorem C2_counterexample :
    ¬ (countComplete (runEvents [StreamLine.record resultRecDemo,
        StreamLine.record resultRecDemo] false (some 0) 0) = 1) := by
  decide

/-- C2 amended: for every record stream in which a result record occurs only
as the last record (in particular any stream without one), exactly one
complete event is emitted and it is the last element of the event sequence;
when the stream has no result record the close handler synthesizes it. -/
theorem C2_amended_complete_last (lines : List StreamLine) (killed : Bool)
    (code : Option Int) (d : Nat)
    (h : lines.dropLast.all (fun l => !isResultLine l) = true) :
    ∃ es r, runEvents lines killed code d = es ++ [ClaudeStreamEvent.complete r] ∧
      es.any isCompleteEv = false := by
  rcases List.eq_nil_or_concat lines with hnil | ⟨pre, last, hc⟩
  · subst hnil
    exact ⟨[], closeResult killed code initParserState.accumulatedText d, rfl, rfl⟩
  · subst hc
    rw [List.concat_eq_append] at h ⊢
    have hpre : pre.all (fun l => !isResultLine l) = true := by
      simpa [List.dropLast_concat] using h
    have hnc : ((processLines initParserState pre).2.any isCompleteEv) = false :=
      processLines_no_complete _ _ hpre
    have happ := processLines_append initParserState pre [last]
    cases hres : isResultLine last with
    | true =>
      obtain ⟨r, hrec⟩ : ∃ r, last = StreamLine.record r := by
        cases last with
        | malformed => simp [isResultLine] at hres
        | record r => exact ⟨r, rfl⟩
      subst hrec
      have hty : (r.type == some "result") = true := by simpa [isResultLine] using hres
      have hone : processLines (processLines initParserState pre).1 [StreamLine.record r] =
          ((processLines initParserState pre).1,
           [resultComplete (processLines initParserState pre).1 r]) := by
        simp [processLines, parseStreamLine, parseRec_result _ _ hty]
      have hcomb : processLines initParserState (pre ++ [StreamLine.record r]) =
          ((processLines initParserState pre).1,
           (processLines initParserState pre).2 ++
             [resultComplete (processLines initParserState pre).1 r]) := by
        rw [happ, hone]
      refine ⟨(processLines initParserState pre).2,
        resultPayload (processLines initParserState pre).1 r, ?_, hnc⟩
      simp [runEvents, hcomb, List.any_append, hnc, isCompleteEv, resultComplete]
    | false =>
      have hl2 : ((parseStreamLine (processLines initParserState pre).1 last).2.any isCompleteEv) = false :=
        parseStreamLine_no_complete _ _ hres
      have hone : processLines (processLines initParserState pre).1 [last] =
          ((parseStreamLine (processLines initParserState pre).1 last).1,
           (parseStreamLine (processLines initParserState pre).1 last).2) := by
        simp [processLines]
      have hcomb : processLines initParserState (pre ++ [last]) =
          ((parseStreamLine (processLines initParserState pre).1 last).1,
           (processLines initParserState pre).2 ++
             (parseStreamLine (processLines initParserState pre).1 last).2) := by
        rw [happ, hone]
      refine ⟨(processLines initParserState pre).2 ++
        (parseStreamLine (processLines initParserState pre).1 last).2,
        closeResult killed code
          (parseStreamLine (processLines initParserState pre).1 last).1.accumulatedText d,
        ?_, by simp [List.any_append, hnc, hl2]⟩
      simp [runEvents, hcomb, List.any_append, hnc, hl2]

theorem C2_amended_witness :
    (([StreamLine.record (textDeltaRec "Hi"),
       StreamLine.record resultRecDemo].dropLast.all (fun l => !isResultLine l)) = true) ∧
    (∃ es r, runEvents [StreamLine.record (textDeltaRec "Hi"),
        StreamLine.record resultRecDemo] false (some 0) 0 =
          es ++ [ClaudeStreamEvent.complete r] ∧
      es.any isCompleteEv = false) :=
  ⟨by decide, C2_amended_complete_last
    [StreamLine.record (textDeltaRec "Hi"), StreamLine.record resultRecDemo]
    false (some 0) 0 (by decide)⟩
/-- C7: for a fixed key the admit operation returns true exactly once within
one expiry window: an absent key is inserted with the current time and
admitted; any later call while the key is present returns false and returns
the cache completely unchanged. -/
theorem C7_admit_once (c c2 : DedupeCache) (k : String) (now n2 : Nat)
    (h : hasKey c k = false) (h2 : hasKey c2 k = true) :
    (cacheAdmit c k now).1 = true ∧
    (k, now) ∈ (cacheAdmit c k now).2 ∧
    hasKey (cacheAdmit c k now).2 k = true ∧
    cacheAdmit c2 k n2 = (false, c2) := by
  have hmem : (k, now) ∈ (cacheAdmit c k now).2 := by
    simp only [cacheAdmit, isDuplicate, h, Bool.false_eq_true, if_false, setKey]
    by_cases hlen : MAX_CACHE_SIZE < (c ++ [(k, now)]).length
    · simp only [hlen, if_true, sweepCache]
      refine List.mem_filter.mpr ⟨List.mem_append_right _ (List.mem_singleton_self _), ?_⟩
      have : (now < now - DEDUPE_EXPIRY_MS) = False := by
        simp only [eq_iff_iff, iff_false]
        omega
      simp [this]
    · simp only [hlen, if_false]
      exact List.mem_append_right _ (List.mem_singleton_self _)
  refine ⟨?_, hmem, ?_, ?_⟩
  · simp [cacheAdmit, isDuplicate, h]
  · exact List.any_eq_true.mpr ⟨(k, now), hmem, by simp⟩
  · simp [cacheAdmit, isDuplicate, h2]

theorem C7_admit_witness :
    (hasKey [] "C1-1700.1" = false) ∧
    (hasKey [("C1-1700.1", 5)] "C1-1700.1" = true) ∧
    ((cacheAdmit [] "C1-1700.1" 5).1 = true ∧
     ("C1-1700.1", 5) ∈ (cacheAdmit [] "C1-1700.1" 5).2 ∧
     hasKey (cacheAdmit [] "C1-1700.1" 5).2 "C1-1700.1" = true ∧
     cacheAdmit [("C1-1700.1", 5)] "C1-1700.1" 9 = (false, [("C1-1700.1", 5)])) :=
  ⟨by decide, by decide,
   C7_admit_once [] [("C1-1700.1", 5)] "C1-1700.1" 5 9 (by decide) (by decide)⟩

/-- C8: a spawn failure or a child error event yields a ClaudeResult with
success false, null exit code and timedOut false; and every run outcome is
delivered as one complete event carrying exactly the ClaudeResult that the
promise resolves with, so runClaudeStream has a single failure channel and
never rejects. -/
theorem C8_single_failure_channel (o : RunOutcome) (m : String) (d : Nat) :
    (finalizeRun o).1 = ClaudeStreamEvent.complete (finalizeRun o).2 ∧
    (finalizeRun (RunOutcome.spawnFail m d)).2.success = false ∧
    (finalizeRun (RunOutcome.spawnFail m d)).2.exitCode = none ∧
    (finalizeRun (RunOutcome.spawnFail m d)).2.timedOut = false ∧
    (finalizeRun (RunOutcome.spawnFail m d)).2.durationMs = d ∧
    (finalizeRun (RunOutcome.procError m d)).2.success = false ∧
    (finalizeRun (RunOutcome.procError m d)).2.exitCode = none ∧
    (finalizeRun (RunOutcome.procError m d)).2.timedOut = false := by
  refine ⟨?_, rfl, rfl, rfl, rfl, rfl, rfl, rfl⟩
  cases o <;> rfl
theorem updStep_stopped (s : RenderState) (a : UpdAction) (h : s.stopped = true) :
    (updStep s a).1.stopped = true ∧ (updStep s a).2 = false := by
  cases a with
  | ev e => exact ⟨by simp [updStep, updOnEvent, h], rfl⟩
  | tickS => simp [updStep, tickStart, h]
  | tickE => exact ⟨by simp [updStep, tickEnd, h], rfl⟩

theorem pushCount_stopped (s : RenderState) (acts : List UpdAction)
    (h : s.stopped = true) : pushCount s acts = 0 := by
  induction acts generalizing s with
  | nil => rfl
  | cons a as ih =>
    obtain ⟨h1, h2⟩ := updStep_stopped s a h
    simp [pushCount, h2, ih _ h1]

/-- C9: a cadence tick starts a push only when the state is dirty, no push
is in flight and the run has not completed; while a push is in flight a tick
is a no-op, so two flushes never overlap; and once a complete event has been
received the stopped flag is set and no action sequence can start another
cadence push. -/
theorem C9_flush_discipline (s sfl sst : RenderState) (r : ClaudeResult)
    (acts : List UpdAction)
    (hfl : sfl.flushing = true) (hst : sst.stopped = true) :
    ((tickStart s).2.isSome =
       (!s.stopped && s.dirty && !s.flushing)) ∧
    tickStart sfl = (sfl, none) ∧
    (updOnEvent sst (ClaudeStreamEvent.complete r)).stopped = true ∧
    (updOnEvent s (ClaudeStreamEvent.complete r)).stopped = true ∧
    pushCount sst acts = 0 := by
  refine ⟨?_, ?_, ?_, ?_, pushCount_stopped sst acts hst⟩
  · unfold tickStart
    cases hs : s.stopped <;> cases hd : s.dirty <;> cases hf : s.flushing <;> simp [hs, hd, hf]
  · simp [tickStart, hfl]
  · simp [updOnEvent, hst]
  · unfold updOnEvent
    cases hs : s.stopped <;> simp [hs]

theorem C9_flush_witness :
    (({ initRenderState with flushing := true } : RenderState).flushing = true) ∧
    (({ initRenderState with stopped := true } : RenderState).stopped = true) ∧
    (((tickStart initRenderState).2.isSome =
        (!initRenderState.stopped && initRenderState.dirty && !initRenderState.flushing)) ∧
     tickStart { initRenderState with flushing := true } =
       ({ initRenderState with flushing := true }, none) ∧
     (updOnEvent { initRenderState with stopped := true }
        (ClaudeStreamEvent.complete (closeResult false (some 0) "" 0))).stopped = true ∧
     (updOnEvent initRenderState
        (ClaudeStreamEvent.complete (closeResult false (some 0) "" 0))).stopped = true ∧
     pushCount { initRenderState with stopped := true }
       [UpdAction.tickS, UpdAction.ev ClaudeStreamEvent.thinking, UpdAction.tickS] = 0) :=
  ⟨by decide, by decide,
   C9_flush_discipline initRenderState { initRenderState with flushing := true }
     { initRenderState with stopped := true } (closeResult false (some 0) "" 0)
     [UpdAction.tickS, UpdAction.ev ClaudeStreamEvent.thinking, UpdAction.tickS]
     (by decide) (by decide)⟩
/-- C3: SIGTERM is sent iff the process is still running when the timeout
fires; SIGKILL is sent iff it is still running 5000 ms later (so an exit
during the grace period yields no forceful kill); and the finalized result
has timedOut true exactly when a termination signal was ever sent, and
success true exactly when no signal was sent and the exit code is 0. -/
theorem C3_timeout_escalation (timeoutMs exitTime : Nat) (code : Option Int)
    (acc : String) :
    (runSupervisor timeoutMs exitTime code acc).sigTermSent =
      decide (timeoutMs < exitTime) ∧
    (runSupervisor timeoutMs exitTime code acc).sigKillSent =
      decide (timeoutMs + 5000 < exitTime) ∧
    (runSupervisor timeoutMs exitTime code acc).finalResult =
      some (closeResult (decide (timeoutMs < exitTime)) code acc exitTime) ∧
    (closeResult (decide (timeoutMs < exitTime)) code acc exitTime).timedOut =
      decide (timeoutMs < exitTime) ∧
    (closeResult (decide (timeoutMs < exitTime)) code acc exitTime).success =
      (!(decide (timeoutMs < exitTime)) && code == some 0) := by
  by_cases hA : exitTime ≤ timeoutMs
  · have h1 : (decide (timeoutMs < exitTime)) = false := by simp; omega
    have h2 : (decide (timeoutMs + 5000 < exitTime)) = false := by simp; omega
    refine ⟨?_, ?_, ?_, by simp [closeResult], by simp [closeResult]⟩ <;>
      simp [runSupervisor, initSup, supStep, pickMin, evLe, evRank, supHandle,
        isTimerEv, List.filter, h1, h2]
  · push_neg at hA
    have h1 : (decide (timeoutMs < exitTime)) = true := by simpa using hA
    by_cases hB : exitTime ≤ timeoutMs + 5000
    · have h2 : (decide (timeoutMs + 5000 < exitTime)) = false := by simp; omega
      refine ⟨?_, ?_, ?_, by simp [closeResult], by simp [closeResult]⟩ <;>
        simp [runSupervisor, initSup, supStep, pickMin, evLe, evRank, supHandle,
          isTimerEv, List.filter, h1, h2]
    · have h2 : (decide (timeoutMs + 5000 < exitTime)) = true := by simp; omega
      refine ⟨?_, ?_, ?_, by simp [closeResult], by simp [closeResult]⟩ <;>
        simp [runSupervisor, initSup, supStep, pickMin, evLe, evRank, supHandle,
          isTimerEv, List.filter, h1, h2]
